import Mathlib

/-!
Shallow embedding of the `sprites` Go package (HaileyStorm/sprites) and
verification of the frozen claims about it.

Conventions of the embedding:
  * Go `int` values are modelled as `Int` at API boundaries where the source
    compares against `0` or a length, and as `Nat` for the internal animation
    counters, which the source keeps non-negative (they start at `0` and are
    only incremented and reduced modulo positive values).  Where the source
    applies Go's `%` / `/` (truncated division) to values that are provably
    non-negative, the embedding uses `Int.tmod` / `Int.tdiv`, the exact
    counterparts of Go's operators.
  * Go maps are modelled as association lists (`GoMap`) with Go's
    assignment (replace-or-append), `delete` and `len` semantics.
  * A Go function that can panic is modelled with an `Option` layer:
    `none` is a panic.  Fallible functions return `Except GoError _`,
    one `GoError` constructor per `errors.New` / `fmt.Errorf` site,
    carrying the values that the Go code formats into the message.
  * A sub-image of the fixed source image is identified by its pixel
    rectangle, so a `Sprite` (Go: an `image.Image` obtained from
    `SubImage`) is embedded as the rectangle `GoRect`.  The pixel contents
    of the source image are abstracted by the oracle `GoImage.opaqueAt`,
    which tells whether a given sub-rectangle is fully opaque (this is the
    only thing the package ever asks of the pixels).
-/

namespace Sprites

/-- `image.Point` from Go's standard library. -/
structure GoPoint where
  x : Int
  y : Int
deriving DecidableEq

/-- `image.Rectangle` from Go's standard library. -/
structure GoRect where
  min : GoPoint
  max : GoPoint
deriving DecidableEq

/-- `Rectangle.Add`: translate a rectangle by a point. -/
def GoRect.add (r : GoRect) (p : GoPoint) : GoRect :=
  ⟨⟨r.min.x + p.x, r.min.y + p.y⟩, ⟨r.max.x + p.x, r.max.y + p.y⟩⟩

/-- `Rectangle.Dx`: width. -/
def GoRect.dx (r : GoRect) : Int := r.max.x - r.min.x

/-- `Rectangle.Dy`: height. -/
def GoRect.dy (r : GoRect) : Int := r.max.y - r.min.y

/-- `image.Rect(x0, y0, x1, y1)`: builds a rectangle, swapping the
coordinates of an axis when they are given in decreasing order, exactly as
the standard library does. -/
def imageRect (x0 y0 x1 y1 : Int) : GoRect :=
  ⟨⟨if x1 < x0 then x1 else x0, if y1 < y0 then y1 else y0⟩,
   ⟨if x1 < x0 then x0 else x1, if y1 < y0 then y0 else y1⟩⟩

/-- A Go map, as an association list with unique keys.  Iteration order of
Go maps is unspecified; the list order only matters where the source
iterates, and no claim depends on that order. -/
abbrev GoMap (α β : Type) := List (α × β)

/-- Go map read `m[k]` (the `v, ok := m[k]` form). -/
def GoMap.find? {α β : Type} [DecidableEq α] : GoMap α β → α → Option β
  | [], _ => none
  | (k', v) :: rest, k => if k' = k then some v else GoMap.find? rest k

/-- Go map assignment `m[k] = v`: replace the binding if the key is
present, otherwise add it. -/
def GoMap.insert {α β : Type} [DecidableEq α] : GoMap α β → α → β → GoMap α β
  | [], k, v => [(k, v)]
  | (k', v') :: rest, k, v =>
      if k' = k then (k, v) :: rest else (k', v') :: GoMap.insert rest k v

/-- Go map `delete(m, k)`: remove the binding of `k` when present. -/
def GoMap.erase {α β : Type} [DecidableEq α] : GoMap α β → α → GoMap α β
  | [], _ => []
  | (k', v') :: rest, k => if k' = k then rest else (k', v') :: GoMap.erase rest k

/-- Go `len(m)` for a map. -/
def GoMap.size {α β : Type} (m : GoMap α β) : Nat := m.length

theorem GoMap.find?_insert_self {α β : Type} [DecidableEq α]
    (m : GoMap α β) (k : α) (v : β) : (m.insert k v).find? k = some v := by
  induction m with
  | nil => simp [GoMap.insert, GoMap.find?]
  | cons hd tl ih =>
      by_cases h : hd.1 = k <;> simp [GoMap.insert, GoMap.find?, h, ih]

theorem GoMap.find?_insert_ne {α β : Type} [DecidableEq α]
    (m : GoMap α β) (k k' : α) (v : β) (h : k ≠ k') :
    (m.insert k v).find? k' = m.find? k' := by
  induction m with
  | nil => simp [GoMap.insert, GoMap.find?, h]
  | cons hd tl ih =>
      by_cases hh : hd.1 = k
      · subst hh
        simp [GoMap.insert, GoMap.find?, h]
      · simp [GoMap.insert, GoMap.find?, hh, ih]

theorem GoMap.find?_erase_ne {α β : Type} [DecidableEq α]
    (m : GoMap α β) (k k' : α) (h : k ≠ k') :
    (m.erase k).find? k' = m.find? k' := by
  induction m with
  | nil => simp [GoMap.erase]
  | cons hd tl ih =>
      by_cases hh : hd.1 = k
      · subst hh
        simp [GoMap.erase, GoMap.find?, h]
      · simp [GoMap.erase, GoMap.find?, hh, ih]

/-- Keys of a map. -/
def GoMap.keys {α β : Type} (m : GoMap α β) : List α := m.map Prod.fst

theorem GoMap.find?_not_mem {α β : Type} [DecidableEq α]
    (m : GoMap α β) (k : α) (h : k ∉ m.keys) : m.find? k = none := by
  induction m with
  | nil => simp [GoMap.find?]
  | cons hd tl ih =>
      simp only [GoMap.keys, List.map_cons, List.mem_cons] at h
      push_neg at h
      have hne : hd.1 ≠ k := fun hc => h.1 hc.symm
      simp only [GoMap.find?, if_neg hne]
      exact ih h.2

theorem GoMap.find?_erase_self {α β : Type} [DecidableEq α]
    (m : GoMap α β) (k : α) (hnd : m.keys.Nodup) :
    (m.erase k).find? k = none := by
  induction m with
  | nil => simp [GoMap.erase, GoMap.find?]
  | cons hd tl ih =>
      simp only [GoMap.keys, List.map_cons, List.nodup_cons] at hnd
      by_cases hh : hd.1 = k
      · simp only [GoMap.erase, if_pos hh]
        exact GoMap.find?_not_mem tl k (hh ▸ hnd.1)
      · simp only [GoMap.erase, if_neg hh, GoMap.find?, if_neg hh]
        exact ih hnd.2

theorem GoMap.erase_length_le {α β : Type} [DecidableEq α]
    (m : GoMap α β) (k : α) : (m.erase k).length ≤ m.length := by
  induction m with
  | nil => simp [GoMap.erase]
  | cons hd tl ih =>
      by_cases hh : hd.1 = k
      · simp only [GoMap.erase, if_pos hh, List.length_cons]
        omega
      · simp only [GoMap.erase, if_neg hh, List.length_cons]
        omega

theorem GoMap.find?_mem {α β : Type} [DecidableEq α]
    (m : GoMap α β) (k : α) (v : β) (h : m.find? k = some v) : (k, v) ∈ m := by
  induction m with
  | nil => simp [GoMap.find?] at h
  | cons hd tl ih =>
      by_cases hh : hd.1 = k
      · simp only [GoMap.find?, if_pos hh] at h
        cases hd with
        | mk a b =>
            simp only at hh
            cases Option.some.inj h
            cases hh
            exact List.mem_cons_self _ _
      · simp only [GoMap.find?, if_neg hh] at h
        exact List.mem_cons_of_mem _ (ih h)

theorem GoMap.mem_keys_insert {α β : Type} [DecidableEq α]
    (m : GoMap α β) (k x : α) (v : β) (h : x ∈ (m.insert k v).keys) :
    x ∈ m.keys ∨ x = k := by
  induction m with
  | nil =>
      simp [GoMap.insert, GoMap.keys] at h
      right
      exact h
  | cons hd tl ih =>
      by_cases hh : hd.1 = k
      · simp only [GoMap.insert, if_pos hh, GoMap.keys, List.map_cons, List.mem_cons] at h ⊢
        rcases h with h | h
        · right
          exact h
        · left
          right
          exact h
      · simp only [GoMap.insert, if_neg hh, GoMap.keys, List.map_cons, List.mem_cons] at h ⊢
        rcases h with h | h
        · left
          left
          exact h
        · rcases ih h with h2 | h2
          · left
            right
            exact h2
          · right
            exact h2

theorem GoMap.keys_nodup_insert {α β : Type} [DecidableEq α]
    (m : GoMap α β) (k : α) (v : β) (hnd : m.keys.Nodup) :
    ((m.insert k v).keys).Nodup := by
  induction m with
  | nil => simp [GoMap.insert, GoMap.keys]
  | cons hd tl ih =>
      simp only [GoMap.keys, List.map_cons, List.nodup_cons] at hnd
      by_cases hh : hd.1 = k
      · simp only [GoMap.insert, if_pos hh, GoMap.keys, List.map_cons, List.nodup_cons]
        exact ⟨hh ▸ hnd.1, hnd.2⟩
      · simp only [GoMap.insert, if_neg hh, GoMap.keys, List.map_cons, List.nodup_cons]
        refine ⟨fun hmem => ?_, ih hnd.2⟩
        rcases GoMap.mem_keys_insert tl k hd.1 v hmem with h2 | h2
        · exact hnd.1 h2
        · exact hh h2

/-- One constructor per `errors.New` / `fmt.Errorf` site of the package,
carrying the values the Go code formats into the message. -/
inductive GoError
  /-- mode.go `GetFrame`: "index out of bounds" -/
  | indexOutOfBounds
  /-- mode.go `SetFrameCount`: "new frame count must be <= the current frame count and > 0" -/
  | invalidFrameCount (requested : Int) (current : Nat)
  /-- entity `SetModeCount`: "new mode count must be <= the current mode count and > 0" -/
  | invalidModeCount (requested : Int) (current : Nat)
  /-- sheet.go `SetEntityCount`: "new Entity count must be <= the current Entity count and > 0" -/
  | invalidEntityCount (requested : Int) (current : Nat)
  /-- entity `NewInstance`: "advanceEvery must be > 0" -/
  | advanceEveryNotPositive
  /-- animation `SetAdvanceEvery`: "new advanceEvery count must be > 0" -/
  | invalidAdvanceEvery
  /-- entity/instance: "mode with index does not exist" -/
  | modeIndexNotFound (idx : Nat)
  /-- entity/instance: "mode with name does not exist" -/
  | modeNameNotFound (name : String)
  /-- sheet.go: "entity with index does not exist in Sheet" -/
  | entityIndexNotFound (idx : Nat)
  /-- sheet.go: "entity with name does not exist in Sheet" -/
  | entityNameNotFound (name : String)
  /-- createSpriteSheet: "all SheetDimensions fields must be > 0" -/
  | nonPositiveDimensions
  /-- createSpriteSheet: "image width is not EntitiesPerRow * cols/Entity * SpriteWidth" -/
  | widthMismatch (actual expected : Int)
  /-- createSpriteSheet: "image height is not EntitiesPerColumn * rows/Entity * SpriteHeight" -/
  | heightMismatch (actual expected : Int)
  /-- createSpriteSheet: "sprite resize aspect ratio is not the same as original ratio" -/
  | aspectRatioMismatch
  /-- sheet factories: "length of names is greater than number of Entities in Sheet" -/
  | tooManyEntityNames (got capacity : Int)
deriving DecidableEq

/-- A `Sprite` (Go: an `image.Image` returned by `SubImage` of the fixed
source image) is identified by its rectangle within that image. -/
abbrev Sprite := GoRect

/-- `Mode` from mode.go. -/
structure Mode where
  name : String
  spriteSize : GoRect
  fullyOpaque : Bool
  frames : List Sprite
deriving DecidableEq

/-- `Entity` from the entity source file. -/
structure Entity where
  name : String
  modes : GoMap Nat Mode
  modeNamesToIndex : GoMap String Nat
deriving DecidableEq

/-- `Sheet` from sheet.go. -/
structure Sheet where
  entities : GoMap Nat Entity
  entityNamesToIndex : GoMap String Nat
deriving DecidableEq

/-- `animation` from the animation source file (the variant with the
advance cadence): mode pointer, running flag, `advanceEvery`, `advanceCt`
and `currentFrame`.  The three counters are Go `int`s that the package
keeps non-negative, modelled as `Nat`. -/
structure Animation where
  mode : Mode
  running : Bool
  advanceEvery : Nat
  advanceCt : Nat
  currentFrame : Nat
deriving DecidableEq

/-- `Instance` from instance.go: optional name, embedded `*Entity` and
embedded `*animation`. -/
structure Instance where
  name : String
  entity : Entity
  anim : Animation
deriving DecidableEq

/-- mode.go `Mode.FrameCount`. -/
def Mode.FrameCount (m : Mode) : Nat := m.frames.length

/-- mode.go `Mode.GetFrame`: `if index < len(m.frames)` return the frame,
else an error.  (Go indexes with `int`; all callers in the package pass
the non-negative, pre-normalized `currentFrame`.) -/
def Mode.GetFrame (m : Mode) (index : Nat) : Except GoError Sprite :=
  if h : index < m.frames.length then .ok (m.frames.get ⟨index, h⟩)
  else .error .indexOutOfBounds

/-- mode.go `Mode.SetFrameCount`: shrink-only; `count > 0 && count <=
len(m.frames)` keeps `m.frames[0:count]`, otherwise an error and no
change. -/
def Mode.SetFrameCount (m : Mode) (count : Int) : Except GoError Mode :=
  if 0 < count ∧ count ≤ (m.frames.length : Int) then
    .ok { m with frames := m.frames.take count.toNat }
  else
    .error (.invalidFrameCount count m.frames.length)

/-- animation `FrameCount` (promoted from the embedded `*Mode`). -/
def Animation.FrameCount (a : Animation) : Nat := a.mode.FrameCount

/-- animation `StartAnimation`: zero the cadence counter, set running. -/
def Animation.StartAnimation (a : Animation) : Animation :=
  { a with advanceCt := 0, running := true }

/-- animation `ResumeAnimation`: set running only. -/
def Animation.ResumeAnimation (a : Animation) : Animation :=
  { a with running := true }

/-- animation `RestartAnimation`: zero cadence counter and current frame,
set running. -/
def Animation.RestartAnimation (a : Animation) : Animation :=
  { a with advanceCt := 0, currentFrame := 0, running := true }

/-- animation `ResetAnimation`: zero cadence counter and current frame,
clear running. -/
def Animation.ResetAnimation (a : Animation) : Animation :=
  { a with advanceCt := 0, currentFrame := 0, running := false }

/-- animation `StopAnimation`: clear running only. -/
def Animation.StopAnimation (a : Animation) : Animation :=
  { a with running := false }

/-- animation `Frame`: normalize `currentFrame` modulo the frame count,
look the frame up (a lookup error makes Go panic, modelled as `none`), and
if running advance: when the cadence counter is zero increment and
re-normalize `currentFrame`; then increment the cadence counter modulo
`advanceEvery`.  Go's `x %= 0` panics; here `x % 0 = x` but the subsequent
lookup then fails, so `Frame` is `none` exactly when the frame count is
zero, matching the Go panic. -/
def Animation.Frame (a : Animation) : Option (Sprite × Animation) :=
  let cur := a.currentFrame % a.FrameCount
  match a.mode.GetFrame cur with
  | .error _ => none
  | .ok frame =>
      if a.running then
        let cur2 := if a.advanceCt = 0 then (cur + 1) % a.FrameCount else cur
        some (frame, { a with currentFrame := cur2,
                              advanceCt := (a.advanceCt + 1) % a.advanceEvery })
      else
        some (frame, { a with currentFrame := cur })

/-- animation `AdvanceEvery`. -/
def Animation.AdvanceEvery (a : Animation) : Nat := a.advanceEvery

/-- animation `SetAdvanceEvery`: reject non-positive cadence. -/
def Animation.SetAdvanceEvery (a : Animation) (ct : Int) : Except GoError Animation :=
  if ct ≤ 0 then .error .invalidAdvanceEvery
  else .ok { a with advanceEvery := ct.toNat }

/-- `Frame` iterated: thread the state through `n` consecutive calls
(`none` as soon as one call panics). -/
def Animation.framesIter : Nat → Animation → Option Animation
  | 0, a => some a
  | n + 1, a =>
      match a.Frame with
      | none => none
      | some (_, a') => Animation.framesIter n a'

/-- The index-deletion loop shared (textually) by `SetEntityCount` and
`SetModeCount`:

  `for i := count; i < len(m); i++ { delete(m, i) }`

Go re-evaluates `len(m)` on every iteration, and each successful `delete`
shrinks the map, so the loop stops early; this is modelled exactly. -/
def goMapDeleteLoop {β : Type} (m : GoMap Nat β) (i : Nat) : GoMap Nat β :=
  if h : i < m.length then
    have : (m.erase i).length - (i + 1) < m.length - i := by
      have := GoMap.erase_length_le m i
      omega
    goMapDeleteLoop (m.erase i) (i + 1)
  else m
termination_by m.length - i

/-- entity `GetModeByIndex`. -/
def Entity.GetModeByIndex (e : Entity) (idx : Nat) : Except GoError Mode :=
  match e.modes.find? idx with
  | some mode => .ok mode
  | none => .error (.modeIndexNotFound idx)

/-- entity `GetModeByName` (the inner missing-index case is an internal
panic, modelled as `none`). -/
def Entity.GetModeByName (e : Entity) (name : String) :
    Option (Except GoError Mode) :=
  match e.modeNamesToIndex.find? name with
  | some idx =>
      match e.modes.find? idx with
      | some mode => some (.ok mode)
      | none => none
  | none => some (.error (.modeNameNotFound name))

/-- entity `ModeCount`. -/
def Entity.ModeCount (e : Entity) : Nat := e.modes.size

/-- entity `SetModeCount`: shrink-only.  Collects the names mapping to an
index `>= count`, deletes them, then runs the index-deletion loop on the
mode map. -/
def Entity.SetModeCount (e : Entity) (count : Int) : Except GoError Entity :=
  if 0 < count ∧ count ≤ (e.modes.size : Int) then
    let delList := (e.modeNamesToIndex.filter fun p => count ≤ (p.2 : Int)).map Prod.fst
    .ok { e with
      modeNamesToIndex := delList.foldl GoMap.erase e.modeNamesToIndex,
      modes := goMapDeleteLoop e.modes count.toNat }
  else
    .error (.invalidModeCount count e.modes.size)

/-- entity `NewInstance`: initial mode by index plus advance cadence.
(Go takes the index as `int`; a negative index is simply absent from the
map, so `Nat` keys lose nothing for the behaviours claimed.) -/
def Entity.NewInstance (e : Entity) (initialMode : Nat) (advanceEvery : Int) :
    Except GoError Instance :=
  match e.modes.find? initialMode with
  | some mode =>
      if advanceEvery ≤ 0 then .error .advanceEveryNotPositive
      else .ok { name := "",
                 entity := e,
                 anim := { mode := mode, running := false,
                           advanceEvery := advanceEvery.toNat,
                           advanceCt := 0, currentFrame := 0 } }
  | none => .error (.modeIndexNotFound initialMode)

/-- entity `NewInstanceWithModeName`: resolve the name, then call
`NewInstance`; if that call fails the Go code panics with "internal
error" (modelled as `none`) instead of returning the error. -/
def Entity.NewInstanceWithModeName (e : Entity) (initialMode : String)
    (advanceEvery : Int) : Option (Except GoError Instance) :=
  match e.modeNamesToIndex.find? initialMode with
  | some idx =>
      match e.NewInstance idx advanceEvery with
      | .ok instance' => some (.ok instance')
      | .error _ => none
  | none => some (.error (.modeNameNotFound initialMode))

/-- instance.go `SetModeByIndex`: a pure mode-pointer swap on the embedded
animation. -/
def Instance.SetModeByIndex (i : Instance) (index : Nat) :
    Except GoError Instance :=
  match i.entity.modes.find? index with
  | some mode => .ok { i with anim := { i.anim with mode := mode } }
  | none => .error (.modeIndexNotFound index)

/-- instance.go `SetModeByName`: resolve the name then swap the mode
pointer; a name mapping to a missing index is an internal panic
(`none`). -/
def Instance.SetModeByName (i : Instance) (name : String) :
    Option (Except GoError Instance) :=
  match i.entity.modeNamesToIndex.find? name with
  | some idx =>
      match i.entity.modes.find? idx with
      | some mode => some (.ok { i with anim := { i.anim with mode := mode } })
      | none => none
  | none => some (.error (.modeNameNotFound name))

/-- sheet.go `GetEntityByIndex`. -/
def Sheet.GetEntityByIndex (s : Sheet) (idx : Nat) : Except GoError Entity :=
  match s.entities.find? idx with
  | some entity => .ok entity
  | none => .error (.entityIndexNotFound idx)

/-- sheet.go `GetEntityByName` (missing index behind a present name is an
internal panic, modelled as `none`). -/
def Sheet.GetEntityByName (s : Sheet) (name : String) :
    Option (Except GoError Entity) :=
  match s.entityNamesToIndex.find? name with
  | some idx =>
      match s.entities.find? idx with
      | some entity => some (.ok entity)
      | none => none
  | none => some (.error (.entityNameNotFound name))

/-- sheet.go `RenameEntity`: look `oldName` up; rename the entity, map
`newName` to its index and delete `oldName`.  A present name whose index
is missing from the entity map is an internal panic (`none`); an absent
`oldName` is a returned error. -/
def Sheet.RenameEntity (s : Sheet) (oldName newName : String) :
    Option (Except GoError Sheet) :=
  match s.entityNamesToIndex.find? oldName with
  | some idx =>
      match s.entities.find? idx with
      | some entity =>
          some (.ok { s with
            entities := s.entities.insert idx { entity with name := newName },
            entityNamesToIndex :=
              (s.entityNamesToIndex.insert newName idx).erase oldName })
      | none => none
  | none => some (.error (.entityNameNotFound oldName))

/-- The decoded source image: its pixel bounds plus the opacity oracle
abstracting the pixel data (`(*image.RGBA).Opaque()` of a sub-rectangle is
a function of the rectangle once the source image is fixed). -/
structure GoImage where
  bounds : GoRect
  opaqueAt : GoRect → Bool

/-- `SheetDimensions` from sheet.go. -/
structure SheetDimensions where
  EntitiesPerRow : Int
  EntitiesPerColumn : Int
  ModesPerEntity : Int
  FramesPerAnimation : Int
  FramesRunRows : Bool
  numEntityColumns : Int := 0
  numEntityRows : Int := 0
  SpriteWidth : Int
  SpriteHeight : Int
  ResizeWidth : Int := 0
  ResizeHeight : Int := 0
deriving DecidableEq

/-- `EntityAndModeNames` from sheet.go. -/
structure EntityAndModeNames where
  EntityName : String
  ModeNames : List String
deriving DecidableEq

/-- sheet.go `SheetDimensions.init`: resolve the per-entity column/row
counts from the orientation flag. -/
def SheetDimensions.init (d : SheetDimensions) : SheetDimensions :=
  if d.FramesRunRows then
    { d with numEntityColumns := d.FramesPerAnimation,
             numEntityRows := d.ModesPerEntity }
  else
    { d with numEntityColumns := d.ModesPerEntity,
             numEntityRows := d.FramesPerAnimation }

/-- sheet.go `createSpriteSheet`: validate positivity and the exact pixel
dimensions, then optionally resize.  The conversion of the source image to
`*image.RGBA` keeps its bounds and pixels and so is invisible here.  The
resize branch calls the external `ccsl_graphics.ResizeMaintain`;
modelled from the spec: the whole source image is scaled by
`ResizeWidth/SpriteWidth` (exact arithmetic standing in for Go's `float32`
ratio, which no claim exercises) and the sprite dimensions become the
resize dimensions. -/
def createSpriteSheet (spriteSheet : GoImage) (d : SheetDimensions) :
    Except GoError (GoImage × SheetDimensions) :=
  if d.EntitiesPerRow ≤ 0 ∨ d.EntitiesPerColumn ≤ 0 ∨ d.ModesPerEntity ≤ 0 ∨
     d.FramesPerAnimation ≤ 0 ∨ d.SpriteWidth ≤ 0 ∨ d.SpriteHeight ≤ 0 then
    .error .nonPositiveDimensions
  else if spriteSheet.bounds.dx ≠ d.EntitiesPerRow * d.numEntityColumns * d.SpriteWidth then
    .error (.widthMismatch spriteSheet.bounds.dx
      (d.EntitiesPerRow * d.numEntityColumns * d.SpriteWidth))
  else if spriteSheet.bounds.dy ≠ d.EntitiesPerColumn * d.numEntityRows * d.SpriteHeight then
    .error (.heightMismatch spriteSheet.bounds.dy
      (d.EntitiesPerColumn * d.numEntityRows * d.SpriteHeight))
  else if 0 < d.ResizeWidth ∧ d.ResizeWidth ≠ d.SpriteWidth then
    if (d.ResizeWidth : ℚ) / (d.ResizeHeight : ℚ) ≠ (d.SpriteWidth : ℚ) / (d.SpriteHeight : ℚ) then
      .error .aspectRatioMismatch
    else
      .ok ({ bounds := imageRect 0 0 (spriteSheet.bounds.dx * d.ResizeWidth / d.SpriteWidth)
                                     (spriteSheet.bounds.dy * d.ResizeWidth / d.SpriteWidth),
             opaqueAt := spriteSheet.opaqueAt },
           { d with SpriteWidth := d.ResizeWidth, SpriteHeight := d.ResizeHeight })
  else
    .ok (spriteSheet, d)

/-- sheet.go `generateModeNames`. -/
def generateModeNames (count : Int) : List String :=
  (List.range count.toNat).map fun i => "Mode" ++ toString i

/-- The `image.Rect(0, 0, SpriteWidth, SpriteHeight)` sprite-size
rectangle used by `generateEntities`. -/
def spriteSizeRect (d : SheetDimensions) : GoRect :=
  imageRect 0 0 d.SpriteWidth d.SpriteHeight

/-- The body of the inner mode loop of `generateEntities`: for each frame
`f` the local offset is `(dx, dy) = (f, j)` when `FramesRunRows` and
`(j, f)` otherwise; the frame is the sprite-size rectangle translated to
`(x + dx*SpriteWidth, y + dy*SpriteHeight)`, and the mode's `fullyOpaque`
flag holds exactly when every frame is opaque. -/
def mkMode (img : GoImage) (d : SheetDimensions) (x y : Int) (j : Nat)
    (modeName : String) : Mode :=
  let frames := (List.range d.FramesPerAnimation.toNat).map fun (f : Nat) =>
    let dx : Int := if d.FramesRunRows then (f : Int) else (j : Int)
    let dy : Int := if d.FramesRunRows then (j : Int) else (f : Int)
    (spriteSizeRect d).add ⟨x + dx * d.SpriteWidth, y + dy * d.SpriteHeight⟩
  { name := modeName, spriteSize := spriteSizeRect d,
    fullyOpaque := frames.all img.opaqueAt, frames := frames }

/-- The mode loop of `generateEntities`: successive map assignments
`modes[j] = ...` and `modeNamesToIndex[modeName] = j`. -/
def buildEntityModes (img : GoImage) (d : SheetDimensions) (x y : Int) :
    List String → Nat → GoMap Nat Mode → GoMap String Nat →
    GoMap Nat Mode × GoMap String Nat
  | [], _, ms, nm => (ms, nm)
  | mn :: rest, j, ms, nm =>
      buildEntityModes img d x y rest (j + 1)
        (ms.insert j (mkMode img d x y j mn)) (nm.insert mn j)

/-- One iteration of the entity loop of `generateEntities`: the entity's
pixel origin is `x = (i % EntitiesPerRow) * numEntityColumns * SpriteWidth
+ Bounds().Min.X` and `y = (i / EntitiesPerRow) * numEntityRows *
SpriteHeight + Bounds().Min.Y` (Go's truncated `%` and `/`). -/
def mkEntity (img : GoImage) (d : SheetDimensions) (i : Nat)
    (em : EntityAndModeNames) : Entity :=
  let x := (Int.tmod (i : Int) d.EntitiesPerRow) * d.numEntityColumns * d.SpriteWidth
           + img.bounds.min.x
  let y := (Int.tdiv (i : Int) d.EntitiesPerRow) * d.numEntityRows * d.SpriteHeight
           + img.bounds.min.y
  let built := buildEntityModes img d x y em.ModeNames 0 [] []
  { name := em.EntityName, modes := built.1, modeNamesToIndex := built.2 }

/-- The entity loop of `generateEntities`: a per-entity mode-name list
longer than `ModesPerEntity` panics (`none`); otherwise the entity and its
name are inserted and the loop continues. -/
def generateEntitiesLoop (img : GoImage) (d : SheetDimensions) :
    List EntityAndModeNames → Nat → Sheet → Option Sheet
  | [], _, s => some s
  | em :: rest, i, s =>
      if d.ModesPerEntity < (em.ModeNames.length : Int) then none
      else generateEntitiesLoop img d rest (i + 1)
        { entities := s.entities.insert i (mkEntity img d i em),
          entityNamesToIndex := s.entityNamesToIndex.insert em.EntityName i }

/-- sheet.go `Sheet.generateEntities`: panics (`none`) when `names` is
longer than the sheet's entity capacity, then runs the entity loop on an
empty sheet. -/
def Sheet.generateEntities (img : GoImage) (d : SheetDimensions)
    (names : List EntityAndModeNames) : Option Sheet :=
  if d.EntitiesPerRow * d.EntitiesPerColumn < (names.length : Int) then none
  else generateEntitiesLoop img d names 0 ⟨[], []⟩

/-- sheet.go `NewSheet`: auto-generated entity and mode names.  The outer
`Option` is a panic escaping `NewSheet` itself (Go has no recover here);
the inner pair is the Go result `(*Sheet, error)`. -/
def NewSheet (img : GoImage) (dimensions : SheetDimensions) :
    Option (Option Sheet × Option GoError) :=
  let dims := dimensions.init
  match createSpriteSheet img dims with
  | .error e => some (none, some e)
  | .ok (sheet, dims') =>
      let modeNames := generateModeNames dims'.ModesPerEntity
      let names := (List.range (dims'.EntitiesPerRow * dims'.EntitiesPerColumn).toNat).map
        fun i => EntityAndModeNames.mk ("GetEntity" ++ toString i) modeNames
      match Sheet.generateEntities sheet dims' names with
      | none => none
      | some s => some (some s, none)

/-- sheet.go `NewSheetWithNames`: caller-supplied per-entity names and
mode-name lists.  A panic of `generateEntities` is recovered in a deferred
closure that assigns the LOCAL variable `err`; the function's result
parameters are unnamed, so the recovered function actually returns the
zero values `(nil, nil)` — no sheet and, crucially, a nil error. -/
def NewSheetWithNames (img : GoImage) (dimensions : SheetDimensions)
    (names : List EntityAndModeNames) : Option Sheet × Option GoError :=
  if dimensions.EntitiesPerRow * dimensions.EntitiesPerColumn < (names.length : Int) then
    (none, some (.tooManyEntityNames (names.length : Int)
      (dimensions.EntitiesPerRow * dimensions.EntitiesPerColumn)))
  else
    let dims := dimensions.init
    match createSpriteSheet img dims with
    | .error e => (none, some e)
    | .ok (sheet, dims') =>
        match Sheet.generateEntities sheet dims' names with
        | none => (none, none)
        | some s => (some s, none)

/-- sheet.go `EntityCount`. -/
def Sheet.EntityCount (s : Sheet) : Nat := s.entities.size

/-- sheet.go `SetEntityCount`: shrink-only; deletes the names mapping to
an index `>= count`, then runs the index-deletion loop on the entity
map. -/
def Sheet.SetEntityCount (s : Sheet) (count : Int) : Except GoError Sheet :=
  if 0 < count ∧ count ≤ (s.entities.size : Int) then
    let delList := (s.entityNamesToIndex.filter fun p => count ≤ (p.2 : Int)).map Prod.fst
    .ok { s with
      entityNamesToIndex := delList.foldl GoMap.erase s.entityNamesToIndex,
      entities := goMapDeleteLoop s.entities count.toNat }
  else
    .error (.invalidEntityCount count s.entities.size)

/-! Concrete fixtures used by witnesses and counterexamples. -/

/-- A 1x1 sprite rectangle. -/
def sq1 : GoRect := ⟨⟨0, 0⟩, ⟨1, 1⟩⟩

/-- Frame fixtures (distinct sub-rectangles of a source image). -/
def frA : Sprite := ⟨⟨0, 0⟩, ⟨1, 1⟩⟩

def frB : Sprite := ⟨⟨1, 0⟩, ⟨2, 1⟩⟩

def frC : Sprite := ⟨⟨2, 0⟩, ⟨3, 1⟩⟩

/-- A three-frame mode. -/
def modeThree : Mode := ⟨"Mode0", sq1, true, [frA, frB, frC]⟩

/-- A one-frame mode. -/
def modeOne : Mode := ⟨"Mode1", sq1, true, [frA]⟩

/-- An entity with the two modes above. -/
def entTwoModes : Entity := ⟨"E", [(0, modeThree), (1, modeOne)], [("Mode0", 0), ("Mode1", 1)]⟩

/-- Entity fixtures for the count-shrink scenario. -/
def entE0 : Entity := ⟨"E0", [], []⟩

def entE1 : Entity := ⟨"E1", [], []⟩

def entE2 : Entity := ⟨"E2", [], []⟩

/-- A sheet of three entities, indices 0, 1, 2, one name each. -/
def sheetThree : Sheet :=
  ⟨[(0, entE0), (1, entE1), (2, entE2)], [("E0", 0), ("E1", 1), ("E2", 2)]⟩

/-- The C1/C7 concrete dimensions: 2x2 entities, 2 modes, 3 frames, 16x16
sprites, frames running down columns. -/
def dimsC : SheetDimensions :=
  { EntitiesPerRow := 2, EntitiesPerColumn := 2, ModesPerEntity := 2,
    FramesPerAnimation := 3, FramesRunRows := false,
    SpriteWidth := 16, SpriteHeight := 16 }

/-- A correctly sized 64x96 source image at origin (0,0). -/
def img64x96 : GoImage := ⟨⟨⟨0, 0⟩, ⟨64, 96⟩⟩, fun _ => true⟩

/-- A 63x96 source image: one pixel short of the expected width. -/
def img63x96 : GoImage := ⟨⟨⟨0, 0⟩, ⟨63, 96⟩⟩, fun _ => true⟩

/-- Minimal 1x1 dimensions for the naming-overflow scenario. -/
def dimsOne : SheetDimensions :=
  { EntitiesPerRow := 1, EntitiesPerColumn := 1, ModesPerEntity := 1,
    FramesPerAnimation := 1, FramesRunRows := false,
    SpriteWidth := 1, SpriteHeight := 1 }

/-- A 1x1 source image. -/
def img1x1 : GoImage := ⟨⟨⟨0, 0⟩, ⟨1, 1⟩⟩, fun _ => true⟩

/-- Claim C2's failing input: one entity whose mode-name list (length 2)
exceeds `ModesPerEntity = 1`. -/
def namesOverflow : List EntityAndModeNames := [⟨"E", ["M0", "M1"]⟩]

/-- Claim C2: the cited design says `NewSheetWithNames` turns the
mode-name-overflow panic into a returned `NamingOverflow` error.  In fact
the deferred `recover` assigns a local variable while the result
parameters are unnamed, so the function returns `(nil, nil)`: no sheet AND
a nil error.  This theorem evaluates the embedded function at the failing
input: the result is `(none, none)`, with no error value, refuting the
claim and matching the Go slip. -/
theorem claim2_naming_overflow_returns_nil_error :
    NewSheetWithNames img1x1 dimsOne namesOverflow = (none, none) ∧
    dimsOne.ModesPerEntity = 1 ∧
    (namesOverflow.map fun em => em.ModeNames.length) = [2] := by
  refine ⟨rfl, rfl, rfl⟩

/-- Claim C6: evaluating the embedded `SetEntityCount` at a sheet with
three entities and requested count 1.  Go's deletion loop re-reads
`len(s.entities)` while deleting, so it stops after removing only index 1:
the call "succeeds", yet entity index 2 survives and the entity count
becomes 2, not 1 — refuting "every index >= newCount is discarded and the
count becomes newCount". -/
theorem claim6_set_entity_count_partial_delete :
    Sheet.SetEntityCount sheetThree 1 =
      .ok ⟨[(0, entE0), (2, entE2)], [("E0", 0)]⟩ ∧
    Sheet.EntityCount ⟨[(0, entE0), (2, entE2)], [("E0", 0)]⟩ = 2 ∧
    GoMap.find? [(0, entE0), (2, entE2)] 2 = some entE2 := by
  refine ⟨?_, rfl, rfl⟩
  simp [Sheet.SetEntityCount, sheetThree, GoMap.size, goMapDeleteLoop, GoMap.erase,
    List.filter, List.foldl]

/-- Claim C9: evaluating the embedded instance construction at an existing
mode name and non-positive cadence.  `NewInstance` (by index) returns the
InvalidArgument error as claimed, but `NewInstanceWithModeName` treats any
failure of the inner `NewInstance` call as an internal error and panics
(`none`) instead of returning the error. -/
theorem claim9_new_instance_with_mode_name_panics :
    Entity.NewInstanceWithModeName entTwoModes "Mode0" 0 = none ∧
    Entity.NewInstance entTwoModes 0 0 = .error .advanceEveryNotPositive ∧
    (∀ a : Animation, a.SetAdvanceEvery 0 = .error .invalidAdvanceEvery) := by
  refine ⟨rfl, rfl, fun a => rfl⟩

/-- Claim C5, counterexample: a reachable stopped instance whose
`currentFrame` is out of range of the (switched-to) mode.  The chain
creates an instance on the three-frame mode, restarts, advances twice
(`currentFrame = 2`), switches to the one-frame mode (a pure pointer swap
that preserves `currentFrame`), stops — and the next `Frame()` call writes
`currentFrame = 2 % 1 = 0`, so a `Frame()` call after `StopAnimation()`
does NOT leave `currentFrame` unchanged. -/
theorem claim5_counterexample :
    Entity.NewInstance entTwoModes 0 1 =
      .ok ⟨"", entTwoModes, ⟨modeThree, false, 1, 0, 0⟩⟩ ∧
    Animation.RestartAnimation ⟨modeThree, false, 1, 0, 0⟩ = ⟨modeThree, true, 1, 0, 0⟩ ∧
    Animation.Frame ⟨modeThree, true, 1, 0, 0⟩ = some (frA, ⟨modeThree, true, 1, 0, 1⟩) ∧
    Animation.Frame ⟨modeThree, true, 1, 0, 1⟩ = some (frB, ⟨modeThree, true, 1, 0, 2⟩) ∧
    Instance.SetModeByIndex ⟨"", entTwoModes, ⟨modeThree, true, 1, 0, 2⟩⟩ 1 =
      .ok ⟨"", entTwoModes, ⟨modeOne, true, 1, 0, 2⟩⟩ ∧
    Animation.StopAnimation ⟨modeOne, true, 1, 0, 2⟩ = ⟨modeOne, false, 1, 0, 2⟩ ∧
    Animation.Frame ⟨modeOne, false, 1, 0, 2⟩ = some (frA, ⟨modeOne, false, 1, 0, 0⟩) ∧
    (0 : Nat) ≠ 2 := by
  refine ⟨rfl, rfl, rfl, rfl, rfl, rfl, rfl, by decide⟩

/-- Claim C5 as amended: after `StopAnimation()` every `Frame()` call
returns the same frame, never advances, and leaves the cadence counter
untouched; `currentFrame` is only re-normalized modulo the frame count —
so it is left unchanged whenever it is already in range, and otherwise
only the first call changes it (to its residue), after which the state is
a fixed point. -/
theorem claim5_stopped_frame_stable (a : Animation) (hrun : a.running = false)
    (hn : 1 ≤ a.mode.frames.length) :
    ∃ s, a.Frame = some (s, { a with currentFrame := a.currentFrame % a.mode.frames.length }) ∧
      Animation.Frame { a with currentFrame := a.currentFrame % a.mode.frames.length } =
        some (s, { a with currentFrame := a.currentFrame % a.mode.frames.length }) ∧
      (a.currentFrame < a.mode.frames.length →
        ({ a with currentFrame := a.currentFrame % a.mode.frames.length } : Animation) = a) := by
  have hlt : a.currentFrame % a.mode.frames.length < a.mode.frames.length :=
    Nat.mod_lt _ (by omega)
  have hmm : a.currentFrame % a.mode.frames.length % a.mode.frames.length =
      a.currentFrame % a.mode.frames.length := Nat.mod_mod_of_dvd _ dvd_rfl
  refine ⟨a.mode.frames.get ⟨a.currentFrame % a.mode.frames.length, hlt⟩, ?_, ?_, ?_⟩
  · simp [Animation.Frame, Animation.FrameCount, Mode.FrameCount, Mode.GetFrame, hlt, hrun]
  · simp [Animation.Frame, Animation.FrameCount, Mode.FrameCount, Mode.GetFrame, hmm, hlt, hrun]
  · intro hc
    simp [Nat.mod_eq_of_lt hc]

/-- Claim C5 witness for the amended statement, at a stopped animation on
the three-frame mode with `currentFrame = 1` (in range). -/
theorem claim5_witness :
    ∃ s, Animation.Frame ⟨modeThree, false, 1, 0, 1⟩ =
        some (s, { (⟨modeThree, false, 1, 0, 1⟩ : Animation) with
                     currentFrame := 1 % modeThree.frames.length }) ∧
      Animation.Frame { (⟨modeThree, false, 1, 0, 1⟩ : Animation) with
                          currentFrame := 1 % modeThree.frames.length } =
        some (s, { (⟨modeThree, false, 1, 0, 1⟩ : Animation) with
                     currentFrame := 1 % modeThree.frames.length }) ∧
      ((1 : Nat) < modeThree.frames.length →
        ({ (⟨modeThree, false, 1, 0, 1⟩ : Animation) with
             currentFrame := 1 % modeThree.frames.length } : Animation) =
          ⟨modeThree, false, 1, 0, 1⟩) :=
  claim5_stopped_frame_stable ⟨modeThree, false, 1, 0, 1⟩ rfl (by decide)

/-- Claim C8: each animation-control operation changes exactly the listed
state components: Start sets running and zeroes the cadence counter,
preserving the current frame (and mode and cadence interval); Stop clears
running only; Restart and Reset zero both counters setting running true
resp. false; and a mode switch by index or name is a pure mode-pointer
swap preserving the running flag, the current frame and the cadence
counter. -/
theorem claim8_control_ops_frame_effects (a : Animation) (i : Instance)
    (idx : Nat) (nm : String) (mo : Mode)
    (hidx : i.entity.modes.find? idx = some mo)
    (hnmi : i.entity.modeNamesToIndex.find? nm = some idx) :
    (a.StartAnimation.running = true ∧ a.StartAnimation.advanceCt = 0 ∧
     a.StartAnimation.currentFrame = a.currentFrame ∧
     a.StartAnimation.mode = a.mode ∧ a.StartAnimation.advanceEvery = a.advanceEvery) ∧
    (a.StopAnimation.running = false ∧ a.StopAnimation.advanceCt = a.advanceCt ∧
     a.StopAnimation.currentFrame = a.currentFrame ∧
     a.StopAnimation.mode = a.mode ∧ a.StopAnimation.advanceEvery = a.advanceEvery) ∧
    (a.RestartAnimation.running = true ∧ a.RestartAnimation.advanceCt = 0 ∧
     a.RestartAnimation.currentFrame = 0 ∧
     a.RestartAnimation.mode = a.mode ∧ a.RestartAnimation.advanceEvery = a.advanceEvery) ∧
    (a.ResetAnimation.running = false ∧ a.ResetAnimation.advanceCt = 0 ∧
     a.ResetAnimation.currentFrame = 0 ∧
     a.ResetAnimation.mode = a.mode ∧ a.ResetAnimation.advanceEvery = a.advanceEvery) ∧
    i.SetModeByIndex idx = .ok { i with anim := { i.anim with mode := mo } } ∧
    i.SetModeByName nm = some (.ok { i with anim := { i.anim with mode := mo } }) := by
  refine ⟨⟨rfl, rfl, rfl, rfl, rfl⟩, ⟨rfl, rfl, rfl, rfl, rfl⟩,
    ⟨rfl, rfl, rfl, rfl, rfl⟩, ⟨rfl, rfl, rfl, rfl, rfl⟩, ?_, ?_⟩
  · simp [Instance.SetModeByIndex, hidx]
  · simp [Instance.SetModeByName, hnmi, hidx]

/-- Claim C8 witness at a concrete instance on `entTwoModes`, switching to
mode index 1 / name "Mode1". -/
theorem claim8_witness :
    ((Animation.StartAnimation ⟨modeThree, false, 5, 3, 2⟩).running = true ∧
     (Animation.StartAnimation ⟨modeThree, false, 5, 3, 2⟩).advanceCt = 0 ∧
     (Animation.StartAnimation ⟨modeThree, false, 5, 3, 2⟩).currentFrame = 2 ∧
     (Animation.StartAnimation ⟨modeThree, false, 5, 3, 2⟩).mode = modeThree ∧
     (Animation.StartAnimation ⟨modeThree, false, 5, 3, 2⟩).advanceEvery = 5) ∧
    ((Animation.StopAnimation ⟨modeThree, false, 5, 3, 2⟩).running = false ∧
     (Animation.StopAnimation ⟨modeThree, false, 5, 3, 2⟩).advanceCt = 3 ∧
     (Animation.StopAnimation ⟨modeThree, false, 5, 3, 2⟩).currentFrame = 2 ∧
     (Animation.StopAnimation ⟨modeThree, false, 5, 3, 2⟩).mode = modeThree ∧
     (Animation.StopAnimation ⟨modeThree, false, 5, 3, 2⟩).advanceEvery = 5) ∧
    ((Animation.RestartAnimation ⟨modeThree, false, 5, 3, 2⟩).running = true ∧
     (Animation.RestartAnimation ⟨modeThree, false, 5, 3, 2⟩).advanceCt = 0 ∧
     (Animation.RestartAnimation ⟨modeThree, false, 5, 3, 2⟩).currentFrame = 0 ∧
     (Animation.RestartAnimation ⟨modeThree, false, 5, 3, 2⟩).mode = modeThree ∧
     (Animation.RestartAnimation ⟨modeThree, false, 5, 3, 2⟩).advanceEvery = 5) ∧
    ((Animation.ResetAnimation ⟨modeThree, false, 5, 3, 2⟩).running = false ∧
     (Animation.ResetAnimation ⟨modeThree, false, 5, 3, 2⟩).advanceCt = 0 ∧
     (Animation.ResetAnimation ⟨modeThree, false, 5, 3, 2⟩).currentFrame = 0 ∧
     (Animation.ResetAnimation ⟨modeThree, false, 5, 3, 2⟩).mode = modeThree ∧
     (Animation.ResetAnimation ⟨modeThree, false, 5, 3, 2⟩).advanceEvery = 5) ∧
    Instance.SetModeByIndex ⟨"", entTwoModes, ⟨modeThree, false, 5, 3, 2⟩⟩ 1 =
      .ok { (⟨"", entTwoModes, ⟨modeThree, false, 5, 3, 2⟩⟩ : Instance) with
              anim := { (⟨modeThree, false, 5, 3, 2⟩ : Animation) with mode := modeOne } } ∧
    Instance.SetModeByName ⟨"", entTwoModes, ⟨modeThree, false, 5, 3, 2⟩⟩ "Mode1" =
      some (.ok { (⟨"", entTwoModes, ⟨modeThree, false, 5, 3, 2⟩⟩ : Instance) with
              anim := { (⟨modeThree, false, 5, 3, 2⟩ : Animation) with mode := modeOne } }) :=
  claim8_control_ops_frame_effects ⟨modeThree, false, 5, 3, 2⟩
    ⟨"", entTwoModes, ⟨modeThree, false, 5, 3, 2⟩⟩ 1 "Mode1" modeOne rfl rfl

/-- Claim C3: after a successful `SetFrameCount(k)` with `0 < k <=
FrameCount()`, every `Frame()` call on an animation running that mode
normalizes `currentFrame` modulo `k` before lookup, the index used is
always `< k`, the out-of-bounds branch of `GetFrame` is not taken and
`Frame` does not panic. -/
theorem claim3_shrunk_mode_frame_safe (m : Mode) (k : Int)
    (hk : 0 < k) (hkn : k ≤ (m.frames.length : Int)) :
    ∃ m', m.SetFrameCount k = .ok m' ∧ (m'.frames.length : Int) = k ∧
      ∀ a : Animation, a.mode = m' →
        a.currentFrame % a.FrameCount = a.currentFrame % k.toNat ∧
        a.currentFrame % k.toNat < k.toNat ∧
        ∃ s, a.mode.GetFrame (a.currentFrame % a.FrameCount) = .ok s ∧
          ∃ a', a.Frame = some (s, a') := by
  have hsucc : m.SetFrameCount k = .ok { m with frames := m.frames.take k.toNat } := by
    simp [Mode.SetFrameCount, hk, hkn]
  have hlen : ({ m with frames := m.frames.take k.toNat } : Mode).frames.length = k.toNat := by
    simp [List.length_take]
    omega
  refine ⟨{ m with frames := m.frames.take k.toNat }, hsucc, by rw [hlen]; omega, ?_⟩
  intro a ha
  have hfc : a.FrameCount = k.toNat := by
    rw [Animation.FrameCount, Mode.FrameCount, ha, hlen]
  have hpos : 0 < k.toNat := by omega
  have hlt : a.currentFrame % k.toNat < k.toNat := Nat.mod_lt _ hpos
  refine ⟨by rw [hfc], hlt, ?_⟩
  have hltf : a.currentFrame % a.FrameCount < a.mode.frames.length := by
    rw [hfc, ha, hlen]
    exact hlt
  refine ⟨a.mode.frames.get ⟨a.currentFrame % a.FrameCount, hltf⟩, ?_, ?_⟩
  · simp [Mode.GetFrame, hltf]
  · cases hr : a.running <;>
      simp [Animation.Frame, Mode.GetFrame, hltf, hr]

/-- Claim C3 witness: shrink the three-frame mode to two frames; the
resulting mode is safe for every animation, checked here with
`currentFrame = 7` (`7 % 2 = 1 < 2`). -/
theorem claim3_witness :
    ∃ m', Mode.SetFrameCount modeThree 2 = .ok m' ∧ (m'.frames.length : Int) = 2 ∧
      ∀ a : Animation, a.mode = m' →
        a.currentFrame % a.FrameCount = a.currentFrame % (2 : Int).toNat ∧
        a.currentFrame % (2 : Int).toNat < (2 : Int).toNat ∧
        ∃ s, a.mode.GetFrame (a.currentFrame % a.FrameCount) = .ok s ∧
          ∃ a', a.Frame = some (s, a') :=
  claim3_shrunk_mode_frame_safe modeThree 2 (by decide) (by decide)

/-- A running animation state with all bookkeeping fields explicit:
mode, cadence interval `e`, current frame `c`, cadence counter `t`. -/
def runState (M : Mode) (e c t : Nat) : Animation := ⟨M, true, e, t, c⟩

theorem framesIter_succ (n : Nat) (a : Animation) :
    Animation.framesIter (n + 1) a =
      match a.Frame with
      | none => none
      | some (_, a') => Animation.framesIter n a' := rfl

/-- One `Frame()` call on a running in-range state: returns frame `c`,
advances `c` exactly when the cadence counter is zero, and steps the
cadence counter modulo `e`. -/
theorem frame_run (M : Mode) (e c t : Nat) (hc : c < M.frames.length) :
    (runState M e c t).Frame = some (M.frames.get ⟨c, hc⟩,
      runState M e (if t = 0 then (c + 1) % M.frames.length else c) ((t + 1) % e)) := by
  simp [runState, Animation.Frame, Animation.FrameCount, Mode.FrameCount, Mode.GetFrame,
    Nat.mod_eq_of_lt hc, dif_pos hc]

/-- While the cadence counter is non-zero, `Frame()` calls do not move the
current frame: after the `m + 1` calls that bring the counter from `t`
back to `0` (with `t + m + 1 = e`), the state has the same frame and a
zero counter. -/
theorem framesIter_hold (M : Mode) (e : Nat) :
    ∀ (m c t : Nat), c < M.frames.length → 0 < t → t + m + 1 = e →
      Animation.framesIter (m + 1) (runState M e c t) = some (runState M e c 0) := by
  intro m
  induction m with
  | zero =>
      intro c t hc ht he
      rw [framesIter_succ, frame_run M e c t hc]
      have h0 : (t + 1) % e = 0 := by
        have : t + 1 = e := by omega
        rw [this, Nat.mod_self]
      simp [if_neg (by omega : ¬ t = 0), h0, Animation.framesIter]
  | succ m ih =>
      intro c t hc ht he
      rw [framesIter_succ, frame_run M e c t hc]
      have h1 : (t + 1) % e = t + 1 := Nat.mod_eq_of_lt (by omega)
      have hrec := ih c (t + 1) hc (by omega) (by omega)
      simp [if_neg (by omega : ¬ t = 0), h1, hrec]

/-- A full cadence block: `e` consecutive `Frame()` calls from a state
with zero cadence counter advance the frame exactly once (modulo the
frame count) and return the counter to zero. -/
theorem framesIter_block (M : Mode) (e : Nat) (he : 1 ≤ e) (c : Nat)
    (hc : c < M.frames.length) :
    Animation.framesIter e (runState M e c 0) =
      some (runState M e ((c + 1) % M.frames.length) 0) := by
  match e, he with
  | 1, _ =>
      rw [framesIter_succ, frame_run M 1 c 0 hc]
      simp [Animation.framesIter]
  | (m + 2), _ =>
      rw [framesIter_succ, frame_run M (m + 2) c 0 hc]
      have hcc : (c + 1) % M.frames.length < M.frames.length := Nat.mod_lt _ (by omega)
      have h1 : 1 % (m + 2) = 1 := Nat.mod_eq_of_lt (by omega)
      have hrec := framesIter_hold M (m + 2) m ((c + 1) % M.frames.length) 1 hcc
        (by omega) (by omega)
      simp [h1, hrec]

theorem framesIter_add (p q : Nat) (a : Animation) :
    Animation.framesIter (p + q) a =
      (Animation.framesIter p a).bind (Animation.framesIter q) := by
  induction p generalizing a with
  | zero => simp [Animation.framesIter]
  | succ p ih =>
      rw [Nat.succ_add, framesIter_succ, framesIter_succ]
      cases h : a.Frame with
      | none => simp
      | some pr => simp [ih pr.2]

/-- `m` full cadence blocks advance the frame `m` times modulo the frame
count. -/
theorem framesIter_blocks (M : Mode) (e : Nat) (he : 1 ≤ e)
    (hn : 1 ≤ M.frames.length) :
    ∀ m, Animation.framesIter (m * e) (runState M e 0 0) =
      some (runState M e (m % M.frames.length) 0) := by
  intro m
  induction m with
  | zero => simp [Animation.framesIter, Nat.zero_mod]
  | succ m ih =>
      have hme : (m + 1) * e = m * e + e := by ring
      rw [hme, framesIter_add, ih]
      have hblock := framesIter_block M e he (m % M.frames.length) (Nat.mod_lt _ (by omega))
      simp only [Option.some_bind, hblock, Nat.mod_add_mod]

/-- Claim C4: from the state produced by `RestartAnimation()`, the
playback cycle of `Frame()` has period `FrameCount() * advanceEvery`: the
whole animation state returns to the restarted state after exactly `n * e`
calls, so the next call returns the identical frame as the first call
after the restart. -/
theorem claim4_playback_period (a : Animation) (n e : Nat)
    (hn : a.mode.frames.length = n) (hn1 : 1 ≤ n)
    (he : a.advanceEvery = e) (he1 : 1 ≤ e) :
    Animation.framesIter (n * e) a.RestartAnimation = some a.RestartAnimation ∧
    (Animation.framesIter (n * e) a.RestartAnimation).bind
        (fun a2 => a2.Frame.map Prod.fst) =
      a.RestartAnimation.Frame.map Prod.fst := by
  have hr : a.RestartAnimation = runState a.mode e 0 0 := by
    cases a with
    | mk mo ru ae ct cf =>
        simp only [Animation.RestartAnimation, runState] at *
        rw [he]
  have h1 : Animation.framesIter (n * e) a.RestartAnimation = some a.RestartAnimation := by
    rw [hr, framesIter_blocks a.mode e he1 (by omega)]
    rw [hn, Nat.mod_self]
  exact ⟨h1, by rw [h1, Option.some_bind]⟩

/-- Claim C4 witness: three frames, cadence 2; the state after
`RestartAnimation()` recurs after exactly 6 calls. -/
theorem claim4_witness :
    Animation.framesIter (3 * 2) (Animation.RestartAnimation ⟨modeThree, false, 2, 1, 2⟩) =
      some (Animation.RestartAnimation ⟨modeThree, false, 2, 1, 2⟩) ∧
    (Animation.framesIter (3 * 2)
        (Animation.RestartAnimation ⟨modeThree, false, 2, 1, 2⟩)).bind
        (fun a2 => a2.Frame.map Prod.fst) =
      (Animation.RestartAnimation ⟨modeThree, false, 2, 1, 2⟩).Frame.map Prod.fst :=
  claim4_playback_period ⟨modeThree, false, 2, 1, 2⟩ 3 2 rfl (by decide) rfl (by decide)

/-- Claim C10: `RenameEntity(oldName, newName)` returns an error exactly
when `oldName` is absent from the name map.  When `newName` already names
a different entity `j` (and is the only name doing so, as construction
with distinct names guarantees), the call still succeeds: `newName` is
remapped to the renamed entity's index, entity `j` is untouched in the
entity map, and no name maps to `j` any more. -/
theorem claim10_rename_entity (s : Sheet) (oldName newName : String)
    (i j : Nat) (ent : Entity)
    (hold : s.entityNamesToIndex.find? oldName = some i)
    (hent : s.entities.find? i = some ent)
    (hnew : s.entityNamesToIndex.find? newName = some j)
    (hij : j ≠ i)
    (honly : ∀ p ∈ s.entityNamesToIndex, p.2 = j → p.1 = newName)
    (hnd : s.entityNamesToIndex.keys.Nodup) :
    (∃ s', s.RenameEntity oldName newName = some (.ok s') ∧
      s'.entityNamesToIndex.find? newName = some i ∧
      (∀ nm, s'.entityNamesToIndex.find? nm ≠ some j) ∧
      s'.entities.find? j = s.entities.find? j) ∧
    (∀ o n2, s.entityNamesToIndex.find? o = none →
      s.RenameEntity o n2 = some (.error (.entityNameNotFound o))) ∧
    (∀ o n2 r, s.RenameEntity o n2 = some (.error r) →
      s.entityNamesToIndex.find? o = none) := by
  have hone : oldName ≠ newName := by
    intro hc
    rw [hc, hnew] at hold
    exact hij (Option.some.inj hold)
  refine ⟨⟨⟨s.entities.insert i { ent with name := newName },
      (s.entityNamesToIndex.insert newName i).erase oldName⟩, ?_, ?_, ?_, ?_⟩, ?_, ?_⟩
  · simp [Sheet.RenameEntity, hold, hent]
  · rw [GoMap.find?_erase_ne _ oldName newName hone, GoMap.find?_insert_self]
  · intro nm
    by_cases hno : nm = oldName
    · subst hno
      rw [GoMap.find?_erase_self _ nm (GoMap.keys_nodup_insert _ newName i hnd)]
      exact fun hc => Option.noConfusion hc
    · rw [GoMap.find?_erase_ne _ oldName nm (fun hc => hno hc.symm)]
      by_cases hnn : nm = newName
      · subst hnn
        rw [GoMap.find?_insert_self]
        intro hc
        exact hij (Option.some.inj hc).symm
      · rw [GoMap.find?_insert_ne _ newName nm i (fun hc => hnn hc.symm)]
        intro hc
        exact hnn (honly (nm, j) (GoMap.find?_mem _ nm j hc) rfl)
  · exact GoMap.find?_insert_ne _ i j _ (fun hc => hij hc.symm)
  · intro o n2 h
    simp [Sheet.RenameEntity, h]
  · intro o n2 r h
    cases ho : s.entityNamesToIndex.find? o with
    | none => rfl
    | some idx =>
        cases he2 : s.entities.find? idx with
        | none => simp [Sheet.RenameEntity, ho, he2] at h
        | some ent2 => simp [Sheet.RenameEntity, ho, he2] at h

/-- Claim C10 witness: on the three-entity sheet, rename "E1" to "E0",
which already names entity 0: the call succeeds, "E0" now maps to index 1,
no name maps to index 0, and entity 0 is still in the entity map. -/
theorem claim10_witness :
    (∃ s', Sheet.RenameEntity sheetThree "E1" "E0" = some (.ok s') ∧
      s'.entityNamesToIndex.find? "E0" = some 1 ∧
      (∀ nm, s'.entityNamesToIndex.find? nm ≠ some 0) ∧
      s'.entities.find? 0 = sheetThree.entities.find? 0) ∧
    (∀ o n2, sheetThree.entityNamesToIndex.find? o = none →
      Sheet.RenameEntity sheetThree o n2 = some (.error (.entityNameNotFound o))) ∧
    (∀ o n2 r, Sheet.RenameEntity sheetThree o n2 = some (.error r) →
      sheetThree.entityNamesToIndex.find? o = none) :=
  claim10_rename_entity sheetThree "E1" "E0" 1 0 entE1 rfl rfl rfl
    (by decide) (by decide) (by decide)

theorem init_EntitiesPerRow (d : SheetDimensions) :
    (d.init).EntitiesPerRow = d.EntitiesPerRow := by
  unfold SheetDimensions.init
  split <;> rfl

theorem init_EntitiesPerColumn (d : SheetDimensions) :
    (d.init).EntitiesPerColumn = d.EntitiesPerColumn := by
  unfold SheetDimensions.init
  split <;> rfl

theorem init_ModesPerEntity (d : SheetDimensions) :
    (d.init).ModesPerEntity = d.ModesPerEntity := by
  unfold SheetDimensions.init
  split <;> rfl

theorem init_FramesPerAnimation (d : SheetDimensions) :
    (d.init).FramesPerAnimation = d.FramesPerAnimation := by
  unfold SheetDimensions.init
  split <;> rfl

theorem init_FramesRunRows (d : SheetDimensions) :
    (d.init).FramesRunRows = d.FramesRunRows := by
  unfold SheetDimensions.init
  split <;> rfl

theorem init_SpriteWidth (d : SheetDimensions) :
    (d.init).SpriteWidth = d.SpriteWidth := by
  unfold SheetDimensions.init
  split <;> rfl

theorem init_SpriteHeight (d : SheetDimensions) :
    (d.init).SpriteHeight = d.SpriteHeight := by
  unfold SheetDimensions.init
  split <;> rfl

/-- `init` resolves the per-entity column count to `FramesPerAnimation`
when frames run along rows and to `ModesPerEntity` otherwise. -/
theorem init_numEntityColumns (d : SheetDimensions) :
    (d.init).numEntityColumns =
      if d.FramesRunRows then d.FramesPerAnimation else d.ModesPerEntity := by
  unfold SheetDimensions.init
  split <;> simp_all

/-- `init` resolves the per-entity row count to `ModesPerEntity` when
frames run along rows and to `FramesPerAnimation` otherwise. -/
theorem init_numEntityRows (d : SheetDimensions) :
    (d.init).numEntityRows =
      if d.FramesRunRows then d.ModesPerEntity else d.FramesPerAnimation := by
  unfold SheetDimensions.init
  split <;> simp_all

/-- Claim C7: with all dimension fields positive, sheet construction
(`NewSheet`) succeeds only if the source image is exactly
`entitiesPerRow * columnsPerEntity * spriteWidth` pixels wide and
`entitiesPerColumn * rowsPerEntity * spriteHeight` pixels high; a width or
height mismatch yields no sheet and a dimension-mismatch error carrying
the actual and the expected value. -/
theorem claim7_dimension_mismatch (d : SheetDimensions) (img : GoImage)
    (hpos : 0 < d.EntitiesPerRow ∧ 0 < d.EntitiesPerColumn ∧ 0 < d.ModesPerEntity ∧
            0 < d.FramesPerAnimation ∧ 0 < d.SpriteWidth ∧ 0 < d.SpriteHeight) :
    (∀ s, NewSheet img d = some (some s, none) →
      img.bounds.dx = d.EntitiesPerRow * (d.init).numEntityColumns * d.SpriteWidth ∧
      img.bounds.dy = d.EntitiesPerColumn * (d.init).numEntityRows * d.SpriteHeight) ∧
    (img.bounds.dx ≠ d.EntitiesPerRow * (d.init).numEntityColumns * d.SpriteWidth →
      NewSheet img d = some (none, some (.widthMismatch img.bounds.dx
        (d.EntitiesPerRow * (d.init).numEntityColumns * d.SpriteWidth)))) ∧
    (img.bounds.dx = d.EntitiesPerRow * (d.init).numEntityColumns * d.SpriteWidth →
      img.bounds.dy ≠ d.EntitiesPerColumn * (d.init).numEntityRows * d.SpriteHeight →
      NewSheet img d = some (none, some (.heightMismatch img.bounds.dy
        (d.EntitiesPerColumn * (d.init).numEntityRows * d.SpriteHeight)))) := by
  obtain ⟨h1, h2, h3, h4, h5, h6⟩ := hpos
  have hposInit : ¬((d.init).EntitiesPerRow ≤ 0 ∨ (d.init).EntitiesPerColumn ≤ 0 ∨
      (d.init).ModesPerEntity ≤ 0 ∨ (d.init).FramesPerAnimation ≤ 0 ∨
      (d.init).SpriteWidth ≤ 0 ∨ (d.init).SpriteHeight ≤ 0) := by
    rw [init_EntitiesPerRow, init_EntitiesPerColumn, init_ModesPerEntity,
      init_FramesPerAnimation, init_SpriteWidth, init_SpriteHeight]
    omega
  have hexpW : (d.init).EntitiesPerRow * (d.init).numEntityColumns * (d.init).SpriteWidth =
      d.EntitiesPerRow * (d.init).numEntityColumns * d.SpriteWidth := by
    rw [init_EntitiesPerRow, init_SpriteWidth]
  have hexpH : (d.init).EntitiesPerColumn * (d.init).numEntityRows * (d.init).SpriteHeight =
      d.EntitiesPerColumn * (d.init).numEntityRows * d.SpriteHeight := by
    rw [init_EntitiesPerColumn, init_SpriteHeight]
  have hw : ∀ hne : img.bounds.dx ≠ d.EntitiesPerRow * (d.init).numEntityColumns * d.SpriteWidth,
      NewSheet img d = some (none, some (.widthMismatch img.bounds.dx
        (d.EntitiesPerRow * (d.init).numEntityColumns * d.SpriteWidth))) := by
    intro hne
    have : createSpriteSheet img (d.init) = .error (.widthMismatch img.bounds.dx
        (d.EntitiesPerRow * (d.init).numEntityColumns * d.SpriteWidth)) := by
      rw [createSpriteSheet, if_neg hposInit, hexpW, if_pos hne]
    rw [NewSheet, this]
  have hh : ∀ (_ : img.bounds.dx = d.EntitiesPerRow * (d.init).numEntityColumns * d.SpriteWidth)
      (_ : img.bounds.dy ≠ d.EntitiesPerColumn * (d.init).numEntityRows * d.SpriteHeight),
      NewSheet img d = some (none, some (.heightMismatch img.bounds.dy
        (d.EntitiesPerColumn * (d.init).numEntityRows * d.SpriteHeight))) := by
    intro heq hne
    have : createSpriteSheet img (d.init) = .error (.heightMismatch img.bounds.dy
        (d.EntitiesPerColumn * (d.init).numEntityRows * d.SpriteHeight)) := by
      rw [createSpriteSheet, if_neg hposInit, hexpW, if_neg (not_not_intro heq), hexpH,
        if_pos hne]
    rw [NewSheet, this]
  refine ⟨?_, hw, hh⟩
  intro s hs
  by_cases hweq : img.bounds.dx = d.EntitiesPerRow * (d.init).numEntityColumns * d.SpriteWidth
  · by_cases hheq : img.bounds.dy = d.EntitiesPerColumn * (d.init).numEntityRows * d.SpriteHeight
    · exact ⟨hweq, hheq⟩
    · rw [hh hweq hheq] at hs
      simp at hs
  · rw [hw hweq] at hs
    simp at hs

/-- Claim C7 witness: the 63x96 image (one pixel short of 64) for the
2x2-entity, 2-mode, 3-frame, 16x16 layout fails with the width-mismatch
error carrying actual 63 and expected 64. -/
theorem claim7_witness :
    NewSheet img63x96 dimsC = some (none, some (.widthMismatch 63 64)) := by
  have h := (claim7_dimension_mismatch dimsC img63x96 (by decide)).2.1 (by decide)
  simpa [img63x96, dimsC, GoRect.dx, init_numEntityColumns] using h

/-- The sprite rectangle as the SPEC words it (for comparison with the
code): `(columnsPerEntity, rowsPerEntity) = (FramesPerAnimation,
ModesPerEntity)` if `FramesRunRows` else swapped; entity `i` at
`x = (i mod entitiesPerRow) * columnsPerEntity * spriteWidth`,
`y = (i div entitiesPerRow) * rowsPerEntity * spriteHeight`, offset by the
source origin; frame `f` of mode `j` at local offset `(f, j)` if
`FramesRunRows` else `(j, f)`, scaled by the sprite size; the reference is
the spriteWidth-by-spriteHeight rectangle there. -/
def specSpriteRect (d : SheetDimensions) (ox oy : Int) (i j f : Nat) : GoRect :=
  let columnsPerEntity := if d.FramesRunRows then d.FramesPerAnimation else d.ModesPerEntity
  let rowsPerEntity := if d.FramesRunRows then d.ModesPerEntity else d.FramesPerAnimation
  let x := ox + ((i : Int) % d.EntitiesPerRow) * columnsPerEntity * d.SpriteWidth +
    (if d.FramesRunRows then (f : Int) else (j : Int)) * d.SpriteWidth
  let y := oy + ((i : Int) / d.EntitiesPerRow) * rowsPerEntity * d.SpriteHeight +
    (if d.FramesRunRows then (j : Int) else (f : Int)) * d.SpriteHeight
  ⟨⟨x, y⟩, ⟨x + d.SpriteWidth, y + d.SpriteHeight⟩⟩

theorem spriteSizeRect_pos (d : SheetDimensions)
    (hW : 0 < d.SpriteWidth) (hH : 0 < d.SpriteHeight) :
    spriteSizeRect d = ⟨⟨0, 0⟩, ⟨d.SpriteWidth, d.SpriteHeight⟩⟩ := by
  simp only [spriteSizeRect, imageRect, if_neg (by omega : ¬ d.SpriteWidth < 0),
    if_neg (by omega : ¬ d.SpriteHeight < 0)]

/-- The frames list built by the inner loop: frame `f` is the sprite-size
rectangle translated by the code's local offset. -/
theorem mkMode_frames (img : GoImage) (d : SheetDimensions) (x y : Int)
    (j : Nat) (mn : String) (f : Nat) (hf : f < d.FramesPerAnimation.toNat) :
    (mkMode img d x y j mn).frames[f]? =
      some ((spriteSizeRect d).add
        ⟨x + (if d.FramesRunRows then (f : Int) else (j : Int)) * d.SpriteWidth,
         y + (if d.FramesRunRows then (j : Int) else (f : Int)) * d.SpriteHeight⟩) := by
  have hr : (List.range d.FramesPerAnimation.toNat)[f]? = some f := List.getElem?_range hf
  simp only [mkMode, List.getElem?_map, hr, Option.map_some']

/-- Lookups into the mode map built by the entity's mode loop: bindings
below the starting index are untouched, and the `off`-th remaining mode
name lands at key `j0 + off` with the mode built for that column. -/
theorem buildEntityModes_find? (img : GoImage) (d : SheetDimensions) (x y : Int) :
    ∀ (rest : List String) (j0 : Nat) (ms : GoMap Nat Mode) (nm : GoMap String Nat),
      (∀ k, k < j0 → (buildEntityModes img d x y rest j0 ms nm).1.find? k = ms.find? k) ∧
      (∀ off mn, rest[off]? = some mn →
        (buildEntityModes img d x y rest j0 ms nm).1.find? (j0 + off) =
          some (mkMode img d x y (j0 + off) mn)) := by
  intro rest
  induction rest with
  | nil =>
      intro j0 ms nm
      refine ⟨fun k _ => rfl, fun off mn h => ?_⟩
      simp at h
  | cons mn' rest' ih =>
      intro j0 ms nm
      constructor
      · intro k hk
        have hrec := (ih (j0 + 1) (ms.insert j0 (mkMode img d x y j0 mn'))
          (nm.insert mn' j0)).1 k (by omega)
        rw [buildEntityModes, hrec, GoMap.find?_insert_ne _ j0 k _ (by omega)]
      · intro off mn h
        cases off with
        | zero =>
            have hmn : mn' = mn := by simpa using h
            subst hmn
            have hrec := (ih (j0 + 1) (ms.insert j0 (mkMode img d x y j0 mn'))
              (nm.insert mn' j0)).1 j0 (by omega)
            rw [Nat.add_zero, buildEntityModes, hrec, GoMap.find?_insert_self]
        | succ off' =>
            have h2 : rest'[off']? = some mn := by simpa using h
            have hrec := (ih (j0 + 1) (ms.insert j0 (mkMode img d x y j0 mn'))
              (nm.insert mn' j0)).2 off' mn h2
            rw [buildEntityModes, show j0 + (off' + 1) = j0 + 1 + off' by omega, hrec]

/-- Lookups into the entity map built by the entity loop, together with
its success: when every entity's mode-name list is within
`ModesPerEntity`, the loop returns a sheet whose entry at `i0 + off` is
the entity built for linear index `i0 + off`. -/
theorem generateEntitiesLoop_lookup (img : GoImage) (d : SheetDimensions) :
    ∀ (rest : List EntityAndModeNames) (i0 : Nat) (acc : Sheet),
      (∀ em ∈ rest, (em.ModeNames.length : Int) ≤ d.ModesPerEntity) →
      ∃ s', generateEntitiesLoop img d rest i0 acc = some s' ∧
        (∀ k, k < i0 → s'.entities.find? k = acc.entities.find? k) ∧
        (∀ off em, rest[off]? = some em →
          s'.entities.find? (i0 + off) = some (mkEntity img d (i0 + off) em)) := by
  intro rest
  induction rest with
  | nil =>
      intro i0 acc _
      refine ⟨acc, rfl, fun k _ => rfl, fun off em h => ?_⟩
      simp at h
  | cons em' rest' ih =>
      intro i0 acc hwf
      have hlen : ¬ (d.ModesPerEntity < (em'.ModeNames.length : Int)) := by
        have := hwf em' (List.mem_cons_self _ _)
        omega
      obtain ⟨s', hs', hpres, hlook⟩ := ih (i0 + 1)
        ⟨acc.entities.insert i0 (mkEntity img d i0 em'),
         acc.entityNamesToIndex.insert em'.EntityName i0⟩
        (fun em hm => hwf em (List.mem_cons_of_mem _ hm))
      refine ⟨s', ?_, ?_, ?_⟩
      · rw [generateEntitiesLoop, if_neg hlen]
        exact hs'
      · intro k hk
        rw [hpres k (by omega)]
        exact GoMap.find?_insert_ne _ i0 k _ (by omega)
      · intro off em h
        cases off with
        | zero =>
            have hem : em' = em := by simpa using h
            subst hem
            rw [Nat.add_zero, hpres i0 (by omega), GoMap.find?_insert_self]
        | succ off' =>
            have h2 : rest'[off']? = some em := by simpa using h
            rw [show i0 + (off' + 1) = i0 + 1 + off' by omega]
            exact hlook off' em h2

/-- Claim C1: for valid dimensions and a correctly sized source image,
`init` resolves the layout as `(columnsPerEntity, rowsPerEntity) =
(FramesPerAnimation, ModesPerEntity)` when `FramesRunRows` and swapped
otherwise, and `generateEntities` stores, for entity linear index `i`,
mode `j`, frame `f`, exactly the sprite rectangle the spec's offset
formula describes (origin-offset included). -/
theorem claim1_layout_and_sprite_rect
    (d : SheetDimensions) (img : GoImage) (names : List EntityAndModeNames)
    (i j f : Nat) (em : EntityAndModeNames) (mn : String)
    (hpos : 0 < d.EntitiesPerRow ∧ 0 < d.EntitiesPerColumn ∧ 0 < d.ModesPerEntity ∧
            0 < d.FramesPerAnimation ∧ 0 < d.SpriteWidth ∧ 0 < d.SpriteHeight)
    (himgW : img.bounds.dx = d.EntitiesPerRow * (d.init).numEntityColumns * d.SpriteWidth)
    (himgH : img.bounds.dy = d.EntitiesPerColumn * (d.init).numEntityRows * d.SpriteHeight)
    (hcap : (names.length : Int) ≤ d.EntitiesPerRow * d.EntitiesPerColumn)
    (hwf : ∀ x ∈ names, ((x.ModeNames.length : Int) ≤ d.ModesPerEntity))
    (hi : names[i]? = some em) (hj : em.ModeNames[j]? = some mn)
    (hf : f < d.FramesPerAnimation.toNat) :
    ((d.init).numEntityColumns =
        (if d.FramesRunRows then d.FramesPerAnimation else d.ModesPerEntity) ∧
     (d.init).numEntityRows =
        (if d.FramesRunRows then d.ModesPerEntity else d.FramesPerAnimation)) ∧
    ∃ s ent mo, Sheet.generateEntities img (d.init) names = some s ∧
      s.entities.find? i = some ent ∧
      ent.modes.find? j = some mo ∧
      mo.frames[f]? = some (specSpriteRect d img.bounds.min.x img.bounds.min.y i j f) := by
  obtain ⟨h1, h2, h3, h4, h5, h6⟩ := hpos
  refine ⟨⟨init_numEntityColumns d, init_numEntityRows d⟩, ?_⟩
  have hwf2 : ∀ x ∈ names, ((x.ModeNames.length : Int) ≤ (d.init).ModesPerEntity) := by
    intro x hx
    rw [init_ModesPerEntity]
    exact hwf x hx
  obtain ⟨s, hs, _, hlook⟩ := generateEntitiesLoop_lookup img (d.init) names 0 ⟨[], []⟩ hwf2
  have hcap2 : ¬ ((d.init).EntitiesPerRow * (d.init).EntitiesPerColumn <
      (names.length : Int)) := by
    rw [init_EntitiesPerRow, init_EntitiesPerColumn]
    omega
  have hgen : Sheet.generateEntities img (d.init) names = some s := by
    rw [Sheet.generateEntities, if_neg hcap2]
    exact hs
  have hent : s.entities.find? i = some (mkEntity img (d.init) i em) := by
    have := hlook i em hi
    simpa using this
  have hmode : (mkEntity img (d.init) i em).modes.find? j =
      some (mkMode img (d.init)
        ((Int.tmod (i : Int) (d.init).EntitiesPerRow) * (d.init).numEntityColumns *
            (d.init).SpriteWidth + img.bounds.min.x)
        ((Int.tdiv (i : Int) (d.init).EntitiesPerRow) * (d.init).numEntityRows *
            (d.init).SpriteHeight + img.bounds.min.y)
        j mn) := by
    have h2m := (buildEntityModes_find? img (d.init)
      ((Int.tmod (i : Int) (d.init).EntitiesPerRow) * (d.init).numEntityColumns *
          (d.init).SpriteWidth + img.bounds.min.x)
      ((Int.tdiv (i : Int) (d.init).EntitiesPerRow) * (d.init).numEntityRows *
          (d.init).SpriteHeight + img.bounds.min.y)
      em.ModeNames 0 [] []).2 j mn hj
    rw [Nat.zero_add] at h2m
    simpa [mkEntity] using h2m
  have hframe := mkMode_frames img (d.init)
    ((Int.tmod (i : Int) (d.init).EntitiesPerRow) * (d.init).numEntityColumns *
        (d.init).SpriteWidth + img.bounds.min.x)
    ((Int.tdiv (i : Int) (d.init).EntitiesPerRow) * (d.init).numEntityRows *
        (d.init).SpriteHeight + img.bounds.min.y)
    j mn f (by rw [init_FramesPerAnimation]; exact hf)
  refine ⟨s, _, _, hgen, hent, hmode, ?_⟩
  rw [hframe]
  congr 1
  have htm : Int.tmod (i : Int) d.EntitiesPerRow = (i : Int) % d.EntitiesPerRow :=
    Int.tmod_eq_emod (Int.natCast_nonneg i) (by omega)
  have htd : Int.tdiv (i : Int) d.EntitiesPerRow = (i : Int) / d.EntitiesPerRow :=
    Int.tdiv_eq_ediv (Int.natCast_nonneg i) (by omega)
  rw [init_EntitiesPerRow, init_SpriteWidth, init_SpriteHeight, init_numEntityColumns,
    init_numEntityRows, init_FramesRunRows,
    spriteSizeRect_pos (d.init) (by rw [init_SpriteWidth]; omega)
      (by rw [init_SpriteHeight]; omega), init_SpriteWidth, init_SpriteHeight,
    htm, htd]
  cases hFRR : d.FramesRunRows <;>
    simp [specSpriteRect, GoRect.add, hFRR, GoRect.mk.injEq, GoPoint.mk.injEq] <;>
    refine ⟨⟨by ring, by ring⟩, by ring, by ring⟩

/-- Four named entities, each with two mode names, for the 2x2 sheet. -/
def namesFour : List EntityAndModeNames :=
  [⟨"E0", ["M0", "M1"]⟩, ⟨"E1", ["M0", "M1"]⟩, ⟨"E2", ["M0", "M1"]⟩, ⟨"E3", ["M0", "M1"]⟩]

/-- Claim C1 witness: the concrete 2x2 scenario; entity linear index 1,
mode 1, frame 2 is stored at exactly the spec rectangle, which evaluates
to bounds (48,32)-(64,48). -/
theorem claim1_witness :
    ((((dimsC.init).numEntityColumns =
        (if dimsC.FramesRunRows then dimsC.FramesPerAnimation else dimsC.ModesPerEntity) ∧
      (dimsC.init).numEntityRows =
        (if dimsC.FramesRunRows then dimsC.ModesPerEntity else dimsC.FramesPerAnimation)) ∧
      ∃ s ent mo, Sheet.generateEntities img64x96 (dimsC.init) namesFour = some s ∧
        s.entities.find? 1 = some ent ∧
        ent.modes.find? 1 = some mo ∧
        mo.frames[2]? = some (specSpriteRect dimsC img64x96.bounds.min.x
          img64x96.bounds.min.y 1 1 2)) ∧
    specSpriteRect dimsC img64x96.bounds.min.x img64x96.bounds.min.y 1 1 2 =
      (⟨⟨48, 32⟩, ⟨64, 48⟩⟩ : GoRect)) :=
  ⟨claim1_layout_and_sprite_rect dimsC img64x96 namesFour 1 1 2 ⟨"E1", ["M0", "M1"]⟩ "M1"
    (by decide) (by decide) (by decide) (by decide) (by decide) rfl rfl (by decide),
   by decide⟩

end Sprites
